import Mathlib

/-!
Verification of the OSI ONE agent's natural-language update pipeline.

This file gives a shallow embedding of the decision core of the repository:
the entity extractor and intent classifier (`src/core/nlp/processor.py`),
the orchestrator's safety validation, update planning and batch dispatch
(`src/core/agent/orchestrator.py`), and the status-legalization /
date-normalization logic of the Azure DevOps tool
(`src/tools/azure_devops.py`).  Python regex scans are embedded as
executable scanners over `List Char`; the external patch backend is a
stub parameter, and the optional OpenAI classifier is an oracle
parameter.  Theorems at the end settle the frozen claims about this
pipeline.
-/

set_option maxRecDepth 100000

namespace OsiAgent

abbrev Chars := List Char

/-- ASCII lower-casing of one character, as Python `str.lower` acts on the
ASCII inputs this pipeline receives. -/
def lowerChar (c : Char) : Char :=
  if 'A' ≤ c ∧ c ≤ 'Z' then Char.ofNat (c.toNat + 32) else c

/-- Lower-case a character list. -/
def lowerStr (l : Chars) : Chars := l.map lowerChar

/-- Python regex `\s` (ASCII range): space, tab, newline, carriage return,
vertical tab, form feed. -/
def isSpaceChar (c : Char) : Bool :=
  c = ' ' || c = '\t' || c = '\n' || c = '\r' || c = '\x0b' || c = '\x0c'

/-- Python regex `\w` on ASCII input: letters, digits, underscore. -/
def isWordChar (c : Char) : Bool :=
  c.isAlphanum || c = '_'

/-- The single-quote character (written by code to avoid literal quoting
issues in this development). -/
def quoteChar : Char := Char.ofNat 39

/-- A quote character of Python's class `['\x22]` used by the assignee
patterns: either a single or a double quote. -/
def isQuoteChar (c : Char) : Bool :=
  c = quoteChar || c = '"'

/-- Python `str.strip`: drop whitespace from both ends. -/
def pyStrip (l : Chars) : Chars :=
  ((l.dropWhile isSpaceChar).reverse.dropWhile isSpaceChar).reverse

/-- Python `str.isdigit` on ASCII strings: non-empty and all digits. -/
def pyIsDigit (l : Chars) : Bool :=
  !l.isEmpty && l.all Char.isDigit

/-- Numeric value of a digit string (Python `int(...)` on a digit string). -/
def digitsToNat (l : Chars) : Nat :=
  l.foldl (fun acc c => acc * 10 + (c.toNat - '0'.toNat)) 0

/-- Does `p` occur as a prefix of `l` (exact characters)? -/
def startsWithChars (p l : Chars) : Bool :=
  match p, l with
  | [], _ => true
  | _ :: _, [] => false
  | a :: pt, c :: ct => a = c && startsWithChars pt ct

/-- Substring occurrence test (Python `needle in hay`). -/
def containsChars (needle : Chars) : Chars → Bool
  | [] => startsWithChars needle []
  | l@(_ :: t) => startsWithChars needle l || containsChars needle t

/-- Split a character list at every occurrence of `sep`
(Python `str.split(sep)`, keeping empty pieces). -/
def splitOnChar (sep : Char) : Chars → List Chars
  | [] => [[]]
  | c :: t =>
    let r := splitOnChar sep t
    if c = sep then [] :: r
    else
      match r with
      | [] => [[c]]
      | h :: t2 => (c :: h) :: t2

/-! ### Anchored scanners

Each scanner matches a piece of a Python regex at the head of the input
and returns the rest of the input (plus a capture when the regex
captures).  Literals match case-insensitively, mirroring `re.IGNORECASE`
(patterns are given in lower case); captured text keeps its original
characters. -/

/-- Consume a case-insensitive literal (pattern given in lower case). -/
def eatLit (pat : Chars) (s : Chars) : Option Chars :=
  match pat, s with
  | [], rest => some rest
  | _ :: _, [] => none
  | a :: pt, c :: ct => if lowerChar c = a then eatLit pt ct else none

/-- Consume the maximal run of characters satisfying `f`; return it
together with the rest. -/
def eatWhile (f : Char → Bool) : Chars → Chars × Chars
  | [] => ([], [])
  | c :: t =>
    if f c then
      let (run, rest) := eatWhile f t
      (c :: run, rest)
    else ([], c :: t)

/-- Like `eatWhile` but the run must be non-empty (regex `X+`). -/
def eatWhile1 (f : Char → Bool) (s : Chars) : Option (Chars × Chars) :=
  match eatWhile f s with
  | ([], _) => none
  | (run, rest) => some (run, rest)

/-- Regex `\s+` (no capture). -/
def eatSpaces1 (s : Chars) : Option Chars :=
  (eatWhile1 isSpaceChar s).map (·.2)

/-- Regex `\s*` (no capture, never fails). -/
def eatSpaces0 (s : Chars) : Chars :=
  (eatWhile isSpaceChar s).2

/-- Regex `(\d+)`: capture a maximal non-empty digit run. -/
def eatDigits1 (s : Chars) : Option (Chars × Chars) :=
  eatWhile1 Char.isDigit s

/-- Consume exactly `n` digits. -/
def eatDigitsExact : Nat → Chars → Option (Chars × Chars)
  | 0, s => some ([], s)
  | _ + 1, [] => none
  | n + 1, c :: t =>
    if c.isDigit then
      (eatDigitsExact n t).map (fun (run, rest) => (c :: run, rest))
    else none

/-- Try an anchored match at every start position, left to right
(`re.search`). -/
def searchAt {α : Type} (m : Chars → Option α) : Chars → Option α
  | [] => m []
  | s@(_ :: t) =>
    match m s with
    | some a => some a
    | none => searchAt m t

/-- All non-overlapping matches, scanning left to right (`re.findall`).
Matchers used with this always consume at least one character on
success, so the fuel `s.length + 1` never runs out. -/
def findAllAux {α : Type} (m : Chars → Option (α × Chars)) :
    Nat → Chars → List α
  | 0, _ => []
  | fuel + 1, s =>
    match m s with
    | some (a, rest) => a :: findAllAux m fuel rest
    | none =>
      match s with
      | [] => []
      | _ :: t => findAllAux m fuel t

/-- `re.findall` for an anchored matcher producing `(capture, rest)`. -/
def findAll {α : Type} (m : Chars → Option (α × Chars)) (s : Chars) :
    List α :=
  findAllAux m (s.length + 1) s

/-! ### The concrete patterns of `processor.py` -/

/-- `w-(\d+)` (e.g. `task-(\d+)`), anchored. -/
def mDashId (w : String) (s : Chars) : Option (Chars × Chars) := do
  let s ← eatLit w.data s
  let s ← eatLit "-".data s
  eatDigits1 s

/-- `\[w-(\d+)\]` (e.g. `\[task-(\d+)\]`), anchored. -/
def mBrackDashId (w : String) (s : Chars) : Option (Chars × Chars) := do
  let s ← eatLit "[".data s
  let s ← eatLit w.data s
  let s ← eatLit "-".data s
  let (d, s) ← eatDigits1 s
  let s ← eatLit "]".data s
  pure (d, s)

/-- Literal words separated by `\s+`, then `\s+(\d+)`
(e.g. `task\s+(\d+)`, `user\s+story\s+(\d+)`, `remaining\s+to\s+(\d+)`).
A single part may itself contain a literal space (matching exactly one
space character), as in `original estimate\s+(\d+)`. -/
def mWordsNum : List String → Chars → Option (Chars × Chars)
  | [], s => eatDigits1 s
  | w :: ws, s => do
    let s ← eatLit w.data s
    let s ← eatSpaces1 s
    mWordsNum ws s

/-- `lit\s*->\s*(\d+)` (e.g. `original estimate\s*->\s*(\d+)`). -/
def mLitArrowNum (lit : String) (s : Chars) : Option (Chars × Chars) := do
  let s ← eatLit lit.data s
  let s := eatSpaces0 s
  let s ← eatLit "->".data s
  let s := eatSpaces0 s
  eatDigits1 s

/-- One exact-digit-count attempt of a three-component date pattern with
separator `sep`; captures the whole matched date. -/
def tryDate3 (a b c : Nat) (sep : Char) (s : Chars) :
    Option (Chars × Chars) := do
  let (x, s) ← eatDigitsExact a s
  let s ← eatLit [sep] s
  let (y, s) ← eatDigitsExact b s
  let s ← eatLit [sep] s
  let (z, s) ← eatDigitsExact c s
  pure (x ++ [sep] ++ y ++ [sep] ++ z, s)

/-- `(\d{1,2}/\d{1,2}/\d{4})`, with the regex's greedy order for the
bounded repetitions. -/
def mDateSlash (s : Chars) : Option (Chars × Chars) :=
  (tryDate3 2 2 4 '/' s).orElse fun _ =>
  (tryDate3 2 1 4 '/' s).orElse fun _ =>
  (tryDate3 1 2 4 '/' s).orElse fun _ =>
  tryDate3 1 1 4 '/' s

/-- `(\d{4}-\d{1,2}-\d{1,2})`, greedy order. -/
def mDateIso (s : Chars) : Option (Chars × Chars) :=
  (tryDate3 4 2 2 '-' s).orElse fun _ =>
  (tryDate3 4 2 1 '-' s).orElse fun _ =>
  (tryDate3 4 1 2 '-' s).orElse fun _ =>
  tryDate3 4 1 1 '-' s

/-- `(\d{1,2}-\d{1,2}-\d{4})`, greedy order. -/
def mDateDash (s : Chars) : Option (Chars × Chars) :=
  (tryDate3 2 2 4 '-' s).orElse fun _ =>
  (tryDate3 2 1 4 '-' s).orElse fun _ =>
  (tryDate3 1 2 4 '-' s).orElse fun _ =>
  tryDate3 1 1 4 '-' s

/-- A quoted value `['\x22]([^'\x22]+)['\x22]`: opening quote, a maximal
non-empty run free of quote characters (the capture), closing quote. -/
def eatQuoted (s : Chars) : Option (Chars × Chars) :=
  match s with
  | [] => none
  | c :: t =>
    if isQuoteChar c then
      match eatWhile1 (fun d => !isQuoteChar d) t with
      | none => none
      | some (cap, rest) =>
        match rest with
        | [] => none
        | d :: t2 => if isQuoteChar d then some (cap, t2) else none
    else none

/-- `assignee\s*->\s*['\x22]([^'\x22]+)['\x22]`. -/
def mAssigneeArrow (s : Chars) : Option (Chars × Chars) := do
  let s ← eatLit "assignee".data s
  let s := eatSpaces0 s
  let s ← eatLit "->".data s
  let s := eatSpaces0 s
  eatQuoted s

/-- `w1\s+to\s+['\x22]([^'\x22]+)['\x22]` for the three keyword forms
`assignee to`, `assigned to`, `assign to`. -/
def mAssignToQuoted (w : String) (s : Chars) : Option (Chars × Chars) := do
  let s ← eatLit w.data s
  let s ← eatSpaces1 s
  let s ← eatLit "to".data s
  let s ← eatSpaces1 s
  eatQuoted s

/-- `status\s*->\s*(\w+)` of the batch-line parser. -/
def mStatusArrow (s : Chars) : Option (Chars × Chars) := do
  let s ← eatLit "status".data s
  let s := eatSpaces0 s
  let s ← eatLit "->".data s
  let s := eatSpaces0 s
  eatWhile1 isWordChar s

/-- `lit\s*->\s*(\d{1,2}/\d{1,2}/\d{4})` of the batch-line parser, for
`start date` and `finish date`. -/
def mDateFieldArrow (lit : String) (s : Chars) : Option (Chars × Chars) := do
  let s ← eatLit lit.data s
  let s := eatSpaces0 s
  let s ← eatLit "->".data s
  let s := eatSpaces0 s
  mDateSlash s

/-- `task\s+(\d+)\s*->` of the batch-line parser. -/
def mTaskArrow (s : Chars) : Option (Chars × Chars) := do
  let s ← eatLit "task".data s
  let s ← eatSpaces1 s
  let (d, s) ← eatDigits1 s
  let s := eatSpaces0 s
  let s ← eatLit "->".data s
  pure (d, s)

/-- `sprint\s+(\d+)`. -/
def mSprintNum (s : Chars) : Option (Chars × Chars) := do
  let s ← eatLit "sprint".data s
  let s ← eatSpaces1 s
  eatDigits1 s

/-- `sprint\s+(\w+)`. -/
def mSprintWord (s : Chars) : Option (Chars × Chars) := do
  let s ← eatLit "sprint".data s
  let s ← eatSpaces1 s
  eatWhile1 isWordChar s

/-- `w1\s+w2` with no capture (for `current\s+sprint`, `this\s+sprint`). -/
def mTwoWords (w1 w2 : String) (s : Chars) : Option Chars := do
  let s ← eatLit w1.data s
  let s ← eatSpaces1 s
  eatLit w2.data s

/-- `(?:with|meeting with|call with)\s+([A-Z][a-z]+)` with `IGNORECASE`.
Since each alternative ends in `with`, a leftmost search of the full
alternation matches exactly when `with\s+([A-Za-z][A-Za-z]+)` does, with
the same capture, so the pattern is embedded in that reduced form. -/
def mPerson (s : Chars) : Option (Chars × Chars) := do
  let s ← eatLit "with".data s
  let s ← eatSpaces1 s
  match s with
  | [] => none
  | c :: t =>
    if c.isAlpha then
      match eatWhile1 Char.isAlpha t with
      | none => none
      | some (run, rest) => some (c :: run, rest)
    else none

/-! ### Data model (`processor.py`)

`Entities` is the `Dict[str, Any]` entity bag of `_extract_entities`,
with one field per key the pipeline ever writes; an absent key is `none`
(for scalars) or `[]` (for sequences), matching `dict.get` defaults at
every read site. -/

/-- Per-line field updates captured by `_extract_batch_updates`. -/
structure BatchFieldUpdates where
  start_date : Option String := none
  finish_date : Option String := none
  status : Option String := none
deriving DecidableEq, Repr

/-- One `{task_id, field_updates}` element of `entities["batch_updates"]`. -/
structure BatchItem where
  task_id : String
  field_updates : BatchFieldUpdates
deriving DecidableEq, Repr

/-- The entity bag produced by `_extract_entities`. -/
structure Entities where
  time_period : Option String := none
  status : Option String := none
  batch_updates : Option (List BatchItem) := none
  batch_update_error : Bool := false
  task_id : Option String := none
  field_names : List String := []
  field_name : Option String := none
  date_values : List String := []
  remaining_values : List String := []
  completed_values : List String := []
  original_estimate_values : List String := []
  assignee_values : List String := []
  status_values : List String := []
  sprint : Option String := none
  person : Option String := none
  context : Option String := none
  priority : Option String := none
  task_type : Option String := none
deriving DecidableEq, Repr

/-- `Intent` (`processor.py`): confidence values are the fixed rational
tags of the source (`0.8`, `0.6`, `0.5`, `0.3`). -/
structure Intent where
  name : String
  confidence : ℚ
  entities : Entities
deriving DecidableEq, Repr

/-! ### Keyword tables (`_extract_entities`) -/

def updateKeywords : List String := ["update", "modify", "change", "edit", "set"]

def timeKeywords : List String :=
  ["today", "tomorrow", "yesterday", "this week", "last week", "next week",
   "this sprint", "current sprint"]

def statusKeywordTable : List (String × List String) :=
  [("active", ["active", "in progress", "in-progress", "working", "started"]),
   ("new", ["new", "created", "assigned"]),
   ("resolved", ["resolved", "completed", "done", "finished"]),
   ("closed", ["closed", "closed", "finished"]),
   ("blocked", ["blocked", "waiting", "on hold", "stuck"])]

def fieldPatternTable : List (String × List String) :=
  [("start_date", ["start date", "startdate", "start"]),
   ("finish_date", ["finish date", "finishdate", "finish", "end date", "enddate"]),
   ("status", ["status", "state"]),
   ("priority", ["priority"]),
   ("title", ["title", "name"]),
   ("description", ["description", "desc"]),
   ("assigned_to", ["assigned to", "assigned", "assignee"]),
   ("remaining", ["remaining"]),
   ("completed", ["completed"]),
   ("original_estimate", ["original estimate", "originalestimate", "estimate"])]

def projectKeywords : List String :=
  ["sprint", "project", "feature", "bug", "story", "task"]

def priorityKeywordTable : List (String × List String) :=
  [("high", ["high priority", "urgent", "critical"]),
   ("medium", ["medium priority", "normal"]),
   ("low", ["low priority", "low"])]

def taskTypeTable : List (String × List String) :=
  [("user_story", ["user story", "story", "feature"]),
   ("bug", ["bug", "defect", "issue"]),
   ("task", ["task", "work item"]),
   ("epic", ["epic", "large feature"])]

/-- First table key any of whose keywords occurs in the (lowered) text —
the `for ...: if any(...): ...; break` idiom. -/
def firstKeyMatching (table : List (String × List String)) (lower : Chars) :
    Option String :=
  (table.find? (fun p => p.2.any (fun kw => containsChars kw.data lower))).map (·.1)

/-- All table keys any of whose keywords occurs in the (lowered) text, in
table order — the no-break collection loops. -/
def allKeysMatching (table : List (String × List String)) (lower : Chars) :
    List String :=
  (table.filter (fun p => p.2.any (fun kw => containsChars kw.data lower))).map (·.1)

/-! ### Extraction (`_extract_entities`, `_extract_batch_updates`) -/

/-- The sixteen task-id patterns of `_extract_entities`, in source order. -/
def taskIdMatchers : List (Chars → Option (Chars × Chars)) :=
  [mDashId "task", mDashId "story", mDashId "bug", mDashId "epic",
   mDashId "requirement",
   mBrackDashId "task", mBrackDashId "story", mBrackDashId "bug",
   mBrackDashId "epic", mBrackDashId "requirement",
   mWordsNum ["task"], mWordsNum ["user", "story"], mWordsNum ["story"],
   mWordsNum ["bug"], mWordsNum ["epic"], mWordsNum ["requirement"]]

/-- First pattern (in order) whose search succeeds anywhere in the text;
its capture wins. -/
def firstCapture (ms : List (Chars → Option (Chars × Chars))) (s : Chars) :
    Option Chars :=
  match ms with
  | [] => none
  | m :: rest =>
    match searchAt m s with
    | some (cap, _) => some cap
    | none => firstCapture rest s

/-- `entities["date_values"]`: the first date pattern with any match wins
(`MM/DD/YYYY`, then `YYYY-MM-DD`, then `MM-DD-YYYY`). -/
def dateValues (orig : Chars) : List String :=
  let l1 := findAll mDateSlash orig
  if !l1.isEmpty then l1.map String.mk
  else
    let l2 := findAll mDateIso orig
    if !l2.isEmpty then l2.map String.mk
    else (findAll mDateDash orig).map String.mk

/-- The nine `original estimate` value patterns, in source order; each
pattern's matches are appended (`extend`). -/
def origEstimateMatchers : List (Chars → Option (Chars × Chars)) :=
  [mWordsNum ["original estimate", "to"], mWordsNum ["original estimate"],
   mLitArrowNum "original estimate",
   mWordsNum ["estimate", "to"], mWordsNum ["estimate"], mLitArrowNum "estimate",
   mWordsNum ["for original estimate", "to"], mWordsNum ["for original estimate"],
   mLitArrowNum "for original estimate"]

/-- Concatenated `findall` results of a pattern list, in pattern order. -/
def findAllConcat (ms : List (Chars → Option (Chars × Chars))) (orig : Chars) :
    List String :=
  (ms.map (fun m => (findAll m orig).map String.mk)).flatten

/-- `"update following individual tasks:"` — the batch-mode header. -/
def batchHeader : String := "update following individual tasks:"

/-- The three recognized field updates extracted from one batch line
(`start date`, `finish date`, `status`); everything else on the line is
not looked at. -/
def batchLineFields (line : Chars) : BatchFieldUpdates :=
  { start_date := (searchAt (mDateFieldArrow "start date") line).map
      (fun p => String.mk p.1)
    finish_date := (searchAt (mDateFieldArrow "finish date") line).map
      (fun p => String.mk p.1)
    status := (searchAt mStatusArrow line).map
      (fun p => String.mk (lowerStr p.1)) }

/-- One line of `_extract_batch_updates` (already stripped, non-blank):
`none` marks an invalid line (no `task\s+(\d+)\s*->` prefix, or no
recognized field update on the line). -/
def parseBatchLine (line : Chars) : Option BatchItem :=
  match searchAt mTaskArrow line with
  | none => none
  | some (tid, _) =>
    if pyIsDigit tid then
      let f := batchLineFields line
      if f.start_date.isNone && f.finish_date.isNone && f.status.isNone then none
      else some ⟨String.mk tid, f⟩
    else none

/-- `_extract_batch_updates`: skip the first line, strip, skip blanks;
any invalid line poisons the whole batch (`None`), otherwise the parsed
items are returned in line order. -/
def extractBatchUpdates (text : String) : Option (List BatchItem) :=
  let lines := (splitOnChar '\n' text.data).tail
  let entries := (lines.map pyStrip).filter (fun l => !l.isEmpty)
  let parsed := entries.map parseBatchLine
  if parsed.any Option.isNone then none else some parsed.reduceOption

/-- `entities["sprint"]`: four patterns in order; the no-group patterns
yield `"current"`. -/
def sprintEntity (lower : Chars) : Option String :=
  match searchAt mSprintNum lower with
  | some (c, _) => some (String.mk c)
  | none =>
    match searchAt mSprintWord lower with
    | some (c, _) => some (String.mk c)
    | none =>
      if (searchAt (mTwoWords "current" "sprint") lower).isSome then some "current"
      else if (searchAt (mTwoWords "this" "sprint") lower).isSome then some "current"
      else none

/-- `_extract_entities` (the `intent` argument of the Python method is
unused in its body and is omitted). -/
def extractEntities (text : String) : Entities :=
  let orig := text.data
  let lower := lowerStr orig
  let tp := timeKeywords.find? (fun kw => containsChars kw.data lower)
  let st := firstKeyMatching statusKeywordTable lower
  if containsChars batchHeader.data lower then
    match extractBatchUpdates text with
    | some b => { time_period := tp, status := st, batch_updates := some b }
    | none => { time_period := tp, status := st, batch_update_error := true }
  else
    let fns := allKeysMatching fieldPatternTable lower
    { time_period := tp
      status := st
      task_id := (firstCapture taskIdMatchers orig).map String.mk
      field_names := fns
      field_name := fns.head?
      date_values := dateValues orig
      remaining_values :=
        findAllConcat [mWordsNum ["remaining", "to"], mWordsNum ["remaining"]] orig
      completed_values :=
        findAllConcat [mWordsNum ["completed", "to"], mWordsNum ["completed"]] orig
      original_estimate_values := findAllConcat origEstimateMatchers orig
      assignee_values :=
        findAllConcat [mAssigneeArrow, mAssignToQuoted "assignee",
          mAssignToQuoted "assigned", mAssignToQuoted "assign"] orig
      status_values := allKeysMatching statusKeywordTable lower
      sprint := sprintEntity lower
      person := (searchAt mPerson orig).map (fun p => String.mk p.1)
      context := projectKeywords.find? (fun kw => containsChars kw.data lower)
      priority := firstKeyMatching priorityKeywordTable lower
      task_type := firstKeyMatching taskTypeTable lower }

/-! ### Intent classification (`classify_intent`,
`_fallback_intent_classification`, `_parse_intent_response`) -/

/-- Presence of an update verb (`update/modify/change/edit/set`) as a
substring of the lowered input. -/
def hasUpdateKeyword (lower : Chars) : Bool :=
  updateKeywords.any (fun k => containsChars k.data lower)

/-- The ten dashed/bracketed task-id patterns consulted by the
classifier (`task-\d+`, ..., `\[requirement-\d+\]`) — note the
classifier does not consult the space-separated forms. -/
def classifierTaskIdMatchers : List (Chars → Option (Chars × Chars)) :=
  [mDashId "task", mDashId "story", mDashId "bug", mDashId "epic",
   mDashId "requirement",
   mBrackDashId "task", mBrackDashId "story", mBrackDashId "bug",
   mBrackDashId "epic", mBrackDashId "requirement"]

/-- `has_task_id` of the classifier paths. -/
def hasClassifierTaskId (lower : Chars) : Bool :=
  classifierTaskIdMatchers.any (fun m => (searchAt m lower).isSome)

/-- `_fallback_intent_classification`. -/
def fallbackIntentClassification (text : String) : Intent :=
  let lower := lowerStr text.data
  if hasUpdateKeyword lower then
    if hasClassifierTaskId lower then
      ⟨"task_update", 0.8, extractEntities text⟩
    else
      ⟨"task_update", 0.6, extractEntities text⟩
  else if ["timesheet", "time", "fill", "submit"].any
      (fun w => containsChars w.data lower) then ⟨"timesheet", 0.6, {}⟩
  else if ["task", "work", "item", "sprint"].any
      (fun w => containsChars w.data lower) then ⟨"tasks", 0.6, {}⟩
  else if ["meeting", "calendar", "schedule", "call"].any
      (fun w => containsChars w.data lower) then ⟨"meetings", 0.6, {}⟩
  else if ["pull request", "pr", "review", "code"].any
      (fun w => containsChars w.data lower) then ⟨"pull_requests", 0.6, {}⟩
  else if ["summary", "report", "activity"].any
      (fun w => containsChars w.data lower) then ⟨"summary", 0.6, {}⟩
  else ⟨"tasks", 0.3, {}⟩

/-- `intent_mapping` of `_parse_intent_response`, in insertion order. -/
def intentMappingTable : List (String × String) :=
  [("timesheet", "timesheet"), ("task", "tasks"), ("task update", "task_update"),
   ("update", "task_update"), ("modify", "task_update"), ("change", "task_update"),
   ("meeting", "meetings"), ("calendar", "meetings"),
   ("pull request", "pull_requests"), ("pr", "pull_requests"),
   ("summary", "summary"), ("report", "summary")]

/-- `_parse_intent_response`: map the external classifier's raw label to
a known intent (first mapping keyword contained in the lowered,
stripped label), defaulting to `tasks` at confidence `0.5`. -/
def parseIntentResponse (response : String) (userInput : String) : Intent :=
  let label := pyStrip (lowerStr response.data)
  match intentMappingTable.find? (fun p => containsChars p.1.data label) with
  | some p => ⟨p.2, 0.8, extractEntities userInput⟩
  | none => ⟨"tasks", 0.5, extractEntities userInput⟩

/-- The external (OpenAI) classifier as an environment oracle: `none`
models unavailability or an API failure (the `except` path of
`_call_openai`), `some label` a returned raw label. -/
def Oracle : Type := String → Option String

/-- `classify_intent`: texts containing an update verb are routed to the
rule-based fallback before the external classifier is consulted; other
texts consult the oracle, falling back on failure.  The boolean records
whether the external classifier was consulted. -/
def classifyIntent (text : String) (oracle : Oracle) : Intent × Bool :=
  let lower := lowerStr text.data
  if hasUpdateKeyword lower then (fallbackIntentClassification text, false)
  else
    match oracle text with
    | some resp => (parseIntentResponse resp text, true)
    | none => (fallbackIntentClassification text, true)

/-! ### Azure DevOps tool: `update_work_item` (`azure_devops.py`)

The patch request itself is external I/O; embedded here is the pure
payload preparation: field-path mapping, per-type status legalization
and date normalization. -/

/-- Python `str.lower` on a `String`. -/
def pyLower (s : String) : String := String.mk (lowerStr s.data)

/-- A value in a `field_updates` mapping: the planner produces strings
(dates, statuses, assignees) and ints (remaining/completed/original
estimate). -/
inductive FieldValue where
  | str (s : String)
  | int (n : Nat)
deriving DecidableEq, Repr

/-- Python `str(value)` for a field value. -/
def FieldValue.render : FieldValue → String
  | .str s => s
  | .int n => toString n

/-- A key of a `field_updates` dict.  The single-item planner can
produce the Python key `None` (when no field name was recognized but a
date value was extracted), embedded as `none`. -/
abbrev FieldKey := Option String

/-- Python `str(key)` (an f-string renders `None` as `"None"`). -/
def renderKey : FieldKey → String
  | none => "None"
  | some s => s

/-- An ordered `field_updates` mapping (Python dicts preserve insertion
order). -/
abbrev FieldUpdates := List (FieldKey × FieldValue)

/-- Python dict assignment: overwrite in place if the key exists,
otherwise append. -/
def dictInsert (k : FieldKey) (v : FieldValue) : FieldUpdates → FieldUpdates
  | [] => [(k, v)]
  | (k', v') :: t => if k' = k then (k, v) :: t else (k', v') :: dictInsert k v t

/-- Python dict lookup. -/
def dictLookup (k : FieldKey) (l : FieldUpdates) : Option FieldValue :=
  (l.find? (fun p => p.1 = k)).map (·.2)

/-- `field_mapping` of `update_work_item`. -/
def azureFieldMapping : List (String × String) :=
  [("start_date", "Microsoft.VSTS.Scheduling.StartDate"),
   ("finish_date", "Microsoft.VSTS.Scheduling.FinishDate"),
   ("status", "System.State"),
   ("priority", "Microsoft.VSTS.Common.Priority"),
   ("title", "System.Title"),
   ("description", "System.Description"),
   ("assigned_to", "System.AssignedTo"),
   ("remaining", "Microsoft.VSTS.Scheduling.RemainingWork"),
   ("completed", "Microsoft.VSTS.Scheduling.CompletedWork"),
   ("original_estimate", "Microsoft.VSTS.Scheduling.OriginalEstimate")]

/-- `valid_states_by_type`: legal backend states per work-item type. -/
def validStatesByType : List (String × List String) :=
  [("TASK", ["New", "Active", "Closed", "Removed"]),
   ("USER STORY", ["New", "Approved", "Active", "Resolved", "Closed", "Removed"])]

/-- `status_mapping`: context-free synonym mapping of status tokens. -/
def statusMappingTable : List (String × String) :=
  [("active", "Active"), ("new", "New"), ("approved", "Approved"),
   ("resolved", "Resolved"), ("closed", "Closed"), ("removed", "Removed"),
   ("blocked", "Active")]

/-- `status_mapping.get(new_value.lower(), new_value)`. -/
def statusMapping (v : String) : String :=
  ((statusMappingTable.find? (fun p => p.1 = pyLower v)).map (·.2)).getD v

/-- The TASK `fallback_mapping` (every entry and the default are
`"Active"`). -/
def taskFallbackTable : List (String × String) :=
  [("resolved", "Active"), ("approved", "Active"), ("closed", "Active"),
   ("removed", "Active")]

/-- The USER STORY `fallback_mapping`. -/
def storyFallbackTable : List (String × String) :=
  [("removed", "Active")]

/-- The per-type `fallback_mapping` blocks of `update_work_item` (the
`work_item_type == "TASK"` / `== "USER STORY"` branches). -/
def fallbackFor (t : String) (mapped : String) : String :=
  if t = "TASK" then
    ((taskFallbackTable.find? (fun p => p.1 = pyLower mapped)).map (·.2)).getD "Active"
  else if t = "USER STORY" then
    ((storyFallbackTable.find? (fun p => p.1 = pyLower mapped)).map (·.2)).getD "Active"
  else mapped

/-- The status-legalization block of `update_work_item`: given the
optionally retrieved work-item type, map the requested status through
the synonym table; for a known type (`work_item_type and work_item_type
in valid_states_by_type`), replace a value illegal for that type by the
type's fallback; for an unknown or unavailable type, apply only the
synonym mapping. -/
def legalizeStatus (workItemType : Option String) (newValue : String) : String :=
  match workItemType with
  | some t =>
    match validStatesByType.find? (fun p => p.1 = t) with
    | some entry =>
      if t ≠ "" then
        let mapped := statusMapping newValue
        if entry.2.contains mapped then mapped else fallbackFor t mapped
      else statusMapping newValue
    | none => statusMapping newValue
  | none => statusMapping newValue

/-- Gregorian leap year (as `datetime` validates day ranges). -/
def isLeapYear (y : Nat) : Bool :=
  y % 4 = 0 && (y % 100 ≠ 0 || y % 400 = 0)

/-- Days in a month. -/
def daysInMonth (m y : Nat) : Nat :=
  if m = 2 then (if isLeapYear y then 29 else 28)
  else if m = 4 || m = 6 || m = 9 || m = 11 then 30
  else 31

/-- `datetime.strptime(value, "%m/%d/%Y")`: one or two digits for month
and day, exactly four digits for the year (CPython's `%Y` pattern), the
whole string consumed, and a real calendar date (month 1–12, day within
the month, year at least 1). -/
def parseMDY (s : Chars) : Option (Nat × Nat × Nat) :=
  let attempt := fun (a b : Nat) => do
    let (ms, s1) ← eatDigitsExact a s
    let s2 ← eatLit "/".data s1
    let (ds, s3) ← eatDigitsExact b s2
    let s4 ← eatLit "/".data s3
    let (ys, s5) ← eatDigitsExact 4 s4
    if s5.isEmpty then pure (digitsToNat ms, digitsToNat ds, digitsToNat ys)
    else none
  match ((attempt 2 2).orElse fun _ => (attempt 2 1).orElse fun _ =>
      (attempt 1 2).orElse fun _ => attempt 1 1) with
  | some (m, d, y) =>
    if 1 ≤ m && m ≤ 12 && 1 ≤ y && 1 ≤ d && d ≤ daysInMonth m y then
      some (m, d, y)
    else none
  | none => none

/-- Zero-pad to two digits (`strftime` `%m`, `%d`). -/
def pad2 (n : Nat) : String :=
  if n < 10 then "0" ++ toString n else toString n

/-- Zero-pad to four digits (`strftime` `%Y`). -/
def pad4 (n : Nat) : String :=
  if n < 10 then "000" ++ toString n
  else if n < 100 then "00" ++ toString n
  else if n < 1000 then "0" ++ toString n
  else toString n

/-- The date-normalization block of `update_work_item`: a value
containing `/` is parsed as `MM/DD/YYYY` and reformatted as
`YYYY-MM-DD`; on a parse failure (or no slash) the value passes through
unchanged. -/
def normalizeDateValue (v : String) : String :=
  if containsChars "/".data v.data then
    match parseMDY v.data with
    | some (m, d, y) => pad4 y ++ "-" ++ pad2 m ++ "-" ++ pad2 d
    | none => v
  else v

/-- A JSON-patch operation sent to the backend. -/
structure PatchOp where
  op : String
  path : String
  value : FieldValue
deriving DecidableEq, Repr

/-- The payload-preparation loop of `update_work_item`: one `add`
operation per field, with status legalization and date normalization
applied to the outgoing value. -/
def buildOperations (workItemType : Option String) (fu : FieldUpdates) :
    List PatchOp :=
  fu.map (fun p =>
    let azureField :=
      match p.1 with
      | some fn => ((azureFieldMapping.find? (fun q => q.1 = fn)).map (·.2)).getD fn
      | none => "None"
    let v1 :=
      if p.1 = some "status" then
        match p.2 with
        | .str sv => FieldValue.str (legalizeStatus workItemType sv)
        | .int n => FieldValue.int n
      else p.2
    let v2 :=
      if p.1 = some "start_date" || p.1 = some "finish_date" then
        match v1 with
        | .str sv => if sv ≠ "" then FieldValue.str (normalizeDateValue sv) else v1
        | .int n => FieldValue.int n
      else v1
    { op := "add", path := "/fields/" ++ azureField, value := v2 })

/-! ### Orchestrator (`orchestrator.py`)

`update_work_item` network calls are replaced by a stub
`Nat → Except String Unit` (the work item's id decides success or the
raised error text), and every dispatch is logged in a call log, so
claims about how many backend mutations occur are statements about the
log.  The read-only branches (`tasks`, `pull_requests`) query external
collaborators and are modelled by an abstract per-intent result; they
never call `update_work_item`.  The tool is taken as configured (an
unconfigured session short-circuits in `setup` before any of the logic
verified here runs). -/

/-- Outcome of one `update_work_item` call, decided by the environment. -/
abbrev Stub := Nat → Except String Unit

/-- The `{success, message}` result a tool execution returns to the
orchestrator (the auxiliary `data` payload carries no decision logic and
is omitted). -/
structure ToolResult where
  success : Bool
  message : String
deriving DecidableEq, Repr

/-- Log of dispatched backend mutations: `(work_item_id, field_updates)`
per `update_work_item` call. -/
abbrev CallLog := List (Nat × FieldUpdates)

def missingIdMessage : String :=
  "‚ùå **Please provide the missing Work Item ID!**\n\n" ++
  "I need a specific TASK, USER STORY, or REQUIREMENT number " ++
  "to update individual work items.\n\n" ++
  "**Examples:**\n" ++
  "‚Ä¢ Update TASK-12345 Start Date -> 08/11/2025\n" ++
  "‚Ä¢ Update USER STORY-67890 Status -> Active\n" ++
  "‚Ä¢ Update REQUIREMENT-11111 Finish Date -> 08/12/2025\n\n" ++
  "Please provide the specific work item ID and try again."

def invalidIdFormatMessage (received : String) : String :=
  "‚ùå **Invalid Work Item ID Format**\n\n" ++
  "The work item ID must be a valid number.\n\n" ++
  "**Examples:**\n" ++
  "‚Ä¢ TASK-12345 (ID: 12345)\n" ++
  "‚Ä¢ USER STORY-67890 (ID: 67890)\n" ++
  "‚Ä¢ REQUIREMENT-11111 (ID: 11111)\n\n" ++
  "Received: " ++ received ++ "\n\n" ++
  "Please provide a valid work item ID and try again."

def batchFormatErrorMessage : String :=
  "‚ùå **Invalid Batch Update Format!**\n\n" ++
  "Some tasks in your batch update have invalid or missing task IDs.\n\n" ++
  "**Please ensure all tasks have valid ID numbers:**\n" ++
  "‚Ä¢ TASK 51311 -> Start Date -> 08/08/2025\n" ++
  "‚Ä¢ TASK 51312 -> Start Date -> 08/11/2025\n" ++
  "‚Ä¢ TASK 51310 -> Start Date -> 08/11/2025\n\n" ++
  "Please correct the task IDs and try again."

/-- Python `str(...)` of a list of strings (single-quoted reprs). -/
def pyReprStrList (l : List String) : String :=
  "[" ++ String.intercalate ", " (l.map (fun s => "\x27" ++ s ++ "\x27")) ++ "]"

def invalidTaskIdsMessage (ids : List String) : String :=
  "‚ùå **Invalid Task IDs Found!**\n\n" ++
  "Some tasks are missing valid ID numbers:\n" ++
  "Invalid IDs: " ++ pyReprStrList ids ++ "\n\n" ++
  "**Please ensure all tasks have valid ID numbers:**\n" ++
  "‚Ä¢ TASK 51311 -> Start Date -> 08/08/2025\n" ++
  "‚Ä¢ TASK 51312 -> Start Date -> 08/11/2025\n" ++
  "‚Ä¢ TASK 51310 -> Start Date -> 08/11/2025\n\n" ++
  "Please correct the task IDs and try again."

def missingFieldsMessage (taskId : String) : String :=
  "Missing field updates for task " ++ taskId ++
  ". Please specify what fields to update."

def failedUpdateMessage (taskId : String) (err : String) : String :=
  "Failed to update task " ++ taskId ++ ": " ++ err

def singleUpdateMessage (taskId : String) (fu : FieldUpdates) : String :=
  "‚úÖ Task " ++ taskId ++ " updated successfully!\n\nUpdated fields:\n" ++
  String.intercalate "\n"
    (fu.map (fun p => "‚Ä¢ " ++ renderKey p.1 ++ ": " ++ p.2.render))

/-- `entities.get("field_names", [entities.get("field_name")])`: when no
field name was extracted neither key exists, so the Python default is
the one-element list `[None]`. -/
def effectiveFieldKeys (e : Entities) : List FieldKey :=
  if e.field_names.isEmpty then [none] else e.field_names.map some

/-- One guarded dict assignment (`if ...: field_updates[k] = v`). -/
def condInsert (cond : Bool) (k : FieldKey) (v : FieldValue)
    (fu : FieldUpdates) : FieldUpdates :=
  if cond then dictInsert k v fu else fu

/-- The `if field_names and date_values:` positional zip of
`_execute_azure_devops` (the Nth field name gets the Nth date value). -/
def zipStep (e : Entities) : FieldUpdates :=
  if !(effectiveFieldKeys e).isEmpty && !e.date_values.isEmpty then
    ((effectiveFieldKeys e).zip e.date_values).foldl
      (fun acc p => dictInsert p.1 (FieldValue.str p.2) acc) []
  else []

/-- The status block: explicit `status_values` family first, `elif
status:` generic-scalar fallback otherwise (an empty string is falsy). -/
def statusStep (e : Entities) (fu : FieldUpdates) : FieldUpdates :=
  if (effectiveFieldKeys e).contains (some "status") && !e.status_values.isEmpty then
    dictInsert (some "status") (FieldValue.str e.status_values.headI) fu
  else
    match e.status with
    | some s =>
      if s ≠ "" then dictInsert (some "status") (FieldValue.str s) fu else fu
    | none => fu

/-- The single-item update-planning block of `_execute_azure_devops`:
zip field names against date values positionally, then fill the
status/remaining/completed/original-estimate/assignee families (first
extracted value each). -/
def buildSingleFieldUpdates (e : Entities) : FieldUpdates :=
  condInsert
    ((effectiveFieldKeys e).contains (some "assigned_to") && !e.assignee_values.isEmpty)
    (some "assigned_to") (FieldValue.str e.assignee_values.headI)
    (condInsert
      ((effectiveFieldKeys e).contains (some "original_estimate") &&
        !e.original_estimate_values.isEmpty)
      (some "original_estimate")
      (FieldValue.int (digitsToNat e.original_estimate_values.headI.data))
      (condInsert
        ((effectiveFieldKeys e).contains (some "completed") && !e.completed_values.isEmpty)
        (some "completed")
        (FieldValue.int (digitsToNat e.completed_values.headI.data))
        (condInsert
          ((effectiveFieldKeys e).contains (some "remaining") && !e.remaining_values.isEmpty)
          (some "remaining")
          (FieldValue.int (digitsToNat e.remaining_values.headI.data))
          (statusStep e (zipStep e)))))

/-- A batch item's pre-extracted `field_updates` as the dict passed to
`update_work_item` (insertion order `start_date`, `finish_date`,
`status`). -/
def batchFieldsToUpdates (b : BatchFieldUpdates) : FieldUpdates :=
  (match b.start_date with
   | some v => [(some "start_date", FieldValue.str v)]
   | none => []) ++
  (match b.finish_date with
   | some v => [(some "finish_date", FieldValue.str v)]
   | none => []) ++
  (match b.status with
   | some v => [(some "status", FieldValue.str v)]
   | none => [])

/-- The `for result in results: message += f"• TASK-{task_id}\n"` loop. -/
def renderTaskLines : List String → String
  | [] => ""
  | tid :: rest => "‚Ä¢ " ++ ("TASK-" ++ tid) ++ "\n" ++ renderTaskLines rest

/-- The `for failed in failed_updates: message += ...` loop. -/
def renderFailedLines : List (String × String) → String
  | [] => ""
  | p :: rest =>
    "‚Ä¢ " ++ ("TASK-" ++ p.1 ++ ": " ++ p.2) ++ "\n" ++ renderFailedLines rest

/-- The response-formatting block of `_handle_batch_updates`. -/
def renderBatchMessage (succeeded : List String)
    (failed : List (String × String)) : String :=
  if !failed.isEmpty then
    "‚ö†Ô∏è **Batch Update Partially Completed**\n\n" ++
    ("‚úÖ Successfully updated " ++ toString succeeded.length ++ " tasks") ++ "\n" ++
    ("‚ùå Failed to update " ++ toString failed.length ++ " tasks") ++ "\n\n" ++
    (if !succeeded.isEmpty then
      "**Successfully Updated:**\n" ++ renderTaskLines succeeded
     else "") ++
    (if !failed.isEmpty then
      "\n**Failed Updates:**\n" ++ renderFailedLines failed
     else "")
  else
    "‚úÖ **Batch Update Completed Successfully!**\n\n" ++
    "Updated " ++ toString succeeded.length ++ " tasks:\n" ++
    renderTaskLines succeeded

/-- The per-item success/failure partition the `_handle_batch_updates`
dispatch loop accumulates: task ids of successful items, in input
order. -/
def batchSucceeded (updates : List BatchItem) (stub : Stub) : List String :=
  (updates.filter (fun u => (stub (digitsToNat u.task_id.data)).isOk)).map
    (·.task_id)

/-- Task ids with raised error texts of failed items, in input order. -/
def batchFailed (updates : List BatchItem) (stub : Stub) :
    List (String × String) :=
  updates.filterMap (fun u =>
    match stub (digitsToNat u.task_id.data) with
    | .error err => some (u.task_id, err)
    | .ok _ => none)

/-- `_handle_batch_updates`: re-validate ids defensively, then dispatch
every item independently (no early abort), collecting successes and
failures; the aggregate result is successful only when nothing failed. -/
def handleBatchUpdates (updates : List BatchItem) (stub : Stub) :
    ToolResult × CallLog :=
  let invalid := (updates.filter (fun u => !pyIsDigit u.task_id.data)).map (·.task_id)
  if !invalid.isEmpty then
    ({ success := false, message := invalidTaskIdsMessage invalid }, [])
  else
    let calls := updates.map
      (fun u => (digitsToNat u.task_id.data, batchFieldsToUpdates u.field_updates))
    ({ success := (batchFailed updates stub).isEmpty,
       message := renderBatchMessage (batchSucceeded updates stub)
         (batchFailed updates stub) }, calls)

/-- The single-item `task_update` flow of `_execute_azure_devops`:
missing-id and invalid-id-format safety gates, empty-plan rejection,
then one dispatch whose failure is caught and reported. -/
def executeSingleUpdate (e : Entities) (stub : Stub) : ToolResult × CallLog :=
  match e.task_id with
  | none => ({ success := false, message := missingIdMessage }, [])
  | some tid =>
    if tid = "" then ({ success := false, message := missingIdMessage }, [])
    else if !pyIsDigit tid.data then
      ({ success := false, message := invalidIdFormatMessage tid }, [])
    else
      let fu := buildSingleFieldUpdates e
      if fu.isEmpty then
        ({ success := false, message := missingFieldsMessage tid }, [])
      else
        let n := digitsToNat tid.data
        match stub n with
        | .ok _ => ({ success := true, message := singleUpdateMessage tid fu }, [(n, fu)])
        | .error err =>
          ({ success := false, message := failedUpdateMessage tid err }, [(n, fu)])

/-- `_execute_azure_devops`: the `tasks`/`pull_requests` branches read
external data (abstracted as `queryResult`); `task_update` runs the
batch-error gate, then batch dispatch (a non-empty `batch_updates` list
is truthy) or the single-item flow. -/
def executeAzureDevops (intent : String) (e : Entities) (stub : Stub)
    (queryResult : String → ToolResult) : ToolResult × CallLog :=
  if intent = "tasks" || intent = "pull_requests" then (queryResult intent, [])
  else if intent = "task_update" then
    if e.batch_update_error then
      ({ success := false, message := batchFormatErrorMessage }, [])
    else
      match e.batch_updates with
      | some b =>
        if !b.isEmpty then handleBatchUpdates b stub
        else executeSingleUpdate e stub
      | none => executeSingleUpdate e stub
  else
    ({ success := false,
       message := "I don\x27t know how to handle \x27" ++ intent ++
         "\x27 with Azure DevOps." }, [])

/-- `tool_mapping` of `_select_tool` with its `azure_devops` default. -/
def selectTool (intent : String) : String :=
  if intent = "timesheet" then "osi_one"
  else if intent = "tasks" then "azure_devops"
  else if intent = "task_update" then "azure_devops"
  else if intent = "pull_requests" then "azure_devops"
  else if intent = "meetings" then "teams"
  else if intent = "summary" then "aggregator"
  else "azure_devops"

/-- `_execute_tool`: the non-Azure tools are the source's literal mock
results. -/
def executeTool (tool intent : String) (e : Entities) (stub : Stub)
    (queryResult : String → ToolResult) : ToolResult × CallLog :=
  if tool = "azure_devops" then executeAzureDevops intent e stub queryResult
  else if tool = "teams" then
    ({ success := true,
       message := "Mock Teams tool execution for intent: " ++ intent }, [])
  else if tool = "osi_one" then
    ({ success := true,
       message := "Mock OSI One tool execution for intent: " ++ intent }, [])
  else if tool = "aggregator" then
    ({ success := true,
       message := "Mock data aggregation for intent: " ++ intent }, [])
  else
    ({ success := false,
       message := "Tool " ++ tool ++ " not implemented yet" }, [])

/-- `_generate_response`. -/
def generateResponse (toolResult : ToolResult) : String :=
  if !toolResult.success then
    "I\x27m sorry, I couldn\x27t complete your request. " ++ toolResult.message
  else toolResult.message

/-- One conversation-history record (`_update_conversation_history`). -/
structure HistoryEntry where
  user_input : String
  intent : String
  confidence : ℚ
  entities : Entities
  response : String
  timestamp : ℚ
deriving DecidableEq, Repr

/-- Append an entry, keeping only the last 10. -/
def pushHistory (hist : List HistoryEntry) (entry : HistoryEntry) :
    List HistoryEntry :=
  let h := hist ++ [entry]
  if h.length > 10 then h.drop (h.length - 10) else h

/-- The result envelope `process_query` returns to the front end. -/
structure Envelope where
  success : Bool
  response : String
  intent : String
  confidence : ℚ
  tool_used : String
deriving DecidableEq, Repr

/-- `process_query`: classification, tool selection, tool execution,
response generation, history update.  On this (non-exception) path the
source hardcodes `"success": True` in the envelope regardless of the
tool result.  (The `except` branch of `process_query`, which returns
`success=False` with a generic apology, is the only other exit; every
failure modelled here — oracle failure, stub failure, rejection — is
already caught inside the steps, matching the source.) -/
def processQuery (text : String) (oracle : Oracle) (stub : Stub)
    (queryResult : String → ToolResult) (hist : List HistoryEntry) (now : ℚ) :
    Envelope × List HistoryEntry × CallLog :=
  let intent := (classifyIntent text oracle).1
  let tool := selectTool intent.name
  let tr := executeTool tool intent.name intent.entities stub queryResult
  let response := generateResponse tr.1
  let hist2 := pushHistory hist
    ⟨text, intent.name, intent.confidence, intent.entities, response, now⟩
  ({ success := true
     response := response
     intent := intent.name
     confidence := intent.confidence
     tool_used := tool }, hist2, tr.2)

/-- `classify_intent` as a state transformer over the only mutable
orchestrator state (the conversation history): the method reads and
writes none of it. -/
def classifyIntentWithHistory (hist : List HistoryEntry) (text : String)
    (oracle : Oracle) : Intent × List HistoryEntry :=
  ((classifyIntent text oracle).1, hist)

/-- `sub` occurs as a contiguous substring of `hay`. -/
def strContains (hay sub : String) : Prop :=
  sub.data <:+: hay.data

instance (hay sub : String) : Decidable (strContains hay sub) := by
  unfold strContains
  infer_instance

/-- The legal backend states for a work-item type
(`valid_states_by_type`, empty for unknown types). -/
def legalStatesFor (t : String) : List String :=
  ((validStatesByType.find? (fun p => p.1 = t)).map (·.2)).getD []

/-! ## Theorems -/

theorem strContains_refl (s : String) : strContains s s :=
  ⟨[], [], by simp⟩

theorem strContains_left {a sub : String} (b : String)
    (h : strContains a sub) : strContains (a ++ b) sub := by
  unfold strContains at h ⊢
  obtain ⟨u, v, huv⟩ := h
  exact ⟨u, v ++ b.data, by rw [String.data_append, ← huv]; simp⟩

theorem strContains_right {b sub : String} (a : String)
    (h : strContains b sub) : strContains (a ++ b) sub := by
  unfold strContains at h ⊢
  obtain ⟨u, v, huv⟩ := h
  exact ⟨a.data ++ u, v, by rw [String.data_append, ← huv]; simp⟩

theorem taskFallback_const (s : String) :
    ((taskFallbackTable.find? (fun p => p.1 = s)).map (·.2)).getD "Active"
      = "Active" := by
  rcases h : taskFallbackTable.find? (fun p => p.1 = s) with _ | x
  · rw [h]
    rfl
  · rw [h]
    have hx := List.mem_of_find?_eq_some h
    have hval : x.2 = "Active" := by fin_cases hx <;> rfl
    simp [hval]

theorem storyFallback_const (s : String) :
    ((storyFallbackTable.find? (fun p => p.1 = s)).map (·.2)).getD "Active"
      = "Active" := by
  rcases h : storyFallbackTable.find? (fun p => p.1 = s) with _ | x
  · rw [h]
    rfl
  · rw [h]
    have hx := List.mem_of_find?_eq_some h
    have hval : x.2 = "Active" := by
      fin_cases hx
      rfl
    simp [hval]

theorem fallbackFor_task (mapped : String) :
    fallbackFor "TASK" mapped = "Active" := by
  unfold fallbackFor
  simp only [if_pos rfl]
  exact taskFallback_const _

theorem fallbackFor_story (mapped : String) :
    fallbackFor "USER STORY" mapped = "Active" := by
  unfold fallbackFor
  rw [if_neg (by decide), if_pos rfl]
  exact storyFallback_const _

/-- C5: status legalization before dispatch — a `TASK` asked to become
`resolved` is normalized to the TASK fallback `Active`; a `USER STORY`
asked to become `resolved` keeps the mapped value `Resolved`; for a
known type, any synonym-mapped value outside the type's legal set is
replaced by the type's designated fallback (`Active`); with no type
available only the context-free synonym mapping is applied. -/
theorem c5_status_legalization :
    legalizeStatus (some "TASK") "resolved" = "Active" ∧
    legalizeStatus (some "USER STORY") "resolved" = "Resolved" ∧
    (∀ v : String, (legalStatesFor "TASK").contains (statusMapping v) = false →
      legalizeStatus (some "TASK") v = "Active") ∧
    (∀ v : String, (legalStatesFor "USER STORY").contains (statusMapping v) = false →
      legalizeStatus (some "USER STORY") v = "Active") ∧
    (∀ v : String, legalizeStatus none v = statusMapping v) := by
  refine ⟨by decide, by decide, ?_, ?_, fun v => rfl⟩
  · intro v h
    have hl : legalStatesFor "TASK" = ["New", "Active", "Closed", "Removed"] := by
      decide
    rw [hl] at h
    have hfind : validStatesByType.find? (fun p => p.1 = "TASK")
        = some ("TASK", ["New", "Active", "Closed", "Removed"]) := by decide
    simp only [legalizeStatus, hfind]
    rw [if_pos (by decide)]
    simp only [h, Bool.false_eq_true, if_false]
    exact fallbackFor_task _
  · intro v h
    have hl : legalStatesFor "USER STORY"
        = ["New", "Approved", "Active", "Resolved", "Closed", "Removed"] := by
      decide
    rw [hl] at h
    have hfind : validStatesByType.find? (fun p => p.1 = "USER STORY")
        = some ("USER STORY",
            ["New", "Approved", "Active", "Resolved", "Closed", "Removed"]) := by
      decide
    simp only [legalizeStatus, hfind]
    rw [if_pos (by decide)]
    simp only [h, Bool.false_eq_true, if_false]
    exact fallbackFor_story _

/-- Witness for C5 at concrete inputs. -/
theorem c5_status_legalization_witness :
    (legalStatesFor "TASK").contains (statusMapping "blah") = false ∧
    legalizeStatus (some "TASK") "blah" = "Active" ∧
    (legalStatesFor "USER STORY").contains (statusMapping "junk") = false ∧
    legalizeStatus (some "USER STORY") "junk" = "Active" ∧
    legalizeStatus none "resolved" = statusMapping "resolved" :=
  ⟨by decide,
   c5_status_legalization.2.2.1 "blah" (by decide),
   by decide,
   c5_status_legalization.2.2.2.1 "junk" (by decide),
   c5_status_legalization.2.2.2.2 "resolved"⟩

/-- C7: date normalization round-trip — `08/11/2025` is sent to the
backend as `2025-08-11`; a value without a slash (already ISO) passes
through unchanged; an unparsable value passes through unchanged (total
function, no exception); and `buildOperations` applies exactly this
normalization to `start_date`/`finish_date` payloads. -/
theorem c7_date_normalization :
    normalizeDateValue "08/11/2025" = "2025-08-11" ∧
    (∀ v : String, containsChars "/".data v.data = false →
      normalizeDateValue v = v) ∧
    (∀ v : String, parseMDY v.data = none → normalizeDateValue v = v) ∧
    buildOperations (some "TASK") [(some "start_date", FieldValue.str "08/11/2025")]
      = [⟨"add", "/fields/Microsoft.VSTS.Scheduling.StartDate",
          FieldValue.str "2025-08-11"⟩] ∧
    buildOperations none [(some "finish_date", FieldValue.str "2025-08-11")]
      = [⟨"add", "/fields/Microsoft.VSTS.Scheduling.FinishDate",
          FieldValue.str "2025-08-11"⟩] := by
  refine ⟨by decide, ?_, ?_, by decide, by decide⟩
  · intro v h
    unfold normalizeDateValue
    simp [h]
  · intro v h
    unfold normalizeDateValue
    rcases hc : containsChars "/".data v.data with _ | _
    · simp [hc]
    · simp [hc, h]

/-- Witness for C7 at concrete inputs. -/
theorem c7_date_normalization_witness :
    containsChars "/".data ("2025-08-11" : String).data = false ∧
    normalizeDateValue "2025-08-11" = "2025-08-11" ∧
    parseMDY ("99/99/2025" : String).data = none ∧
    normalizeDateValue "99/99/2025" = "99/99/2025" :=
  ⟨by decide,
   c7_date_normalization.2.1 "2025-08-11" (by decide),
   by decide,
   c7_date_normalization.2.2.1 "99/99/2025" (by decide)⟩

theorem fallback_update_eq (text : String)
    (hkw : hasUpdateKeyword (lowerStr text.data) = true) :
    fallbackIntentClassification text =
      ⟨"task_update",
       if hasClassifierTaskId (lowerStr text.data) then 0.8 else 0.6,
       extractEntities text⟩ := by
  cases hc : hasClassifierTaskId (lowerStr text.data) <;>
    simp [fallbackIntentClassification, hkw, hc]

theorem classify_update_eq (text : String) (oracle : Oracle)
    (hkw : hasUpdateKeyword (lowerStr text.data) = true) :
    classifyIntent text oracle = (fallbackIntentClassification text, false) := by
  simp [classifyIntent, hkw]

/-- C2: any input containing an update verb (update/modify/change/edit/
set, case-insensitive) is classified as `task_update` by the
deterministic rule-based path, with the external classifier never
consulted (the `false` flag, and the result is oracle-independent);
confidence is `0.8` when one of the classifier's dashed/bracketed
work-item-id patterns matches and `0.6` otherwise. -/
theorem c2_update_keyword_forces_rule_based_task_update
    (text : String) (oracle : Oracle)
    (hkw : hasUpdateKeyword (lowerStr text.data) = true) :
    classifyIntent text oracle =
      (⟨"task_update",
        if hasClassifierTaskId (lowerStr text.data) then 0.8 else 0.6,
        extractEntities text⟩, false) ∧
    (classifyIntent text oracle).1 = fallbackIntentClassification text := by
  refine ⟨?_, ?_⟩
  · rw [classify_update_eq text oracle hkw, fallback_update_eq text hkw]
  · rw [classify_update_eq text oracle hkw]

/-- Witness for C2: a concrete update query with a dashed id and one
without, classified under an oracle that would say something else. -/
theorem c2_update_keyword_forces_rule_based_task_update_witness :
    hasUpdateKeyword (lowerStr ("Update TASK-12345 Status -> Active" : String).data)
      = true ∧
    (classifyIntent "Update TASK-12345 Status -> Active"
      (fun _ => some "meetings")).1.name = "task_update" ∧
    (classifyIntent "Update TASK-12345 Status -> Active"
      (fun _ => some "meetings")).2 = false ∧
    hasUpdateKeyword (lowerStr ("update my tasks" : String).data) = true ∧
    (classifyIntent "update my tasks" (fun _ => some "meetings")).1.name
      = "task_update" := by
  refine ⟨by decide, ?_, ?_, by decide, ?_⟩
  · rw [(c2_update_keyword_forces_rule_based_task_update
      "Update TASK-12345 Status -> Active" (fun _ => some "meetings") (by decide)).1]
  · rw [(c2_update_keyword_forces_rule_based_task_update
      "Update TASK-12345 Status -> Active" (fun _ => some "meetings") (by decide)).1]
  · rw [(c2_update_keyword_forces_rule_based_task_update
      "update my tasks" (fun _ => some "meetings") (by decide)).1]

theorem exec_ado_taskupdate_single (e : Entities) (stub : Stub)
    (q : String → ToolResult)
    (herr : e.batch_update_error = false) (hb : e.batch_updates = none) :
    executeAzureDevops "task_update" e stub q = executeSingleUpdate e stub := by
  simp +decide [executeAzureDevops, herr, hb]

theorem exec_ado_taskupdate_batch_error (e : Entities) (stub : Stub)
    (q : String → ToolResult) (herr : e.batch_update_error = true) :
    executeAzureDevops "task_update" e stub q
      = ({ success := false, message := batchFormatErrorMessage }, []) := by
  simp +decide [executeAzureDevops, herr]

theorem execSingle_missing_id (e : Entities) (stub : Stub)
    (hid : e.task_id = none) :
    executeSingleUpdate e stub
      = ({ success := false, message := missingIdMessage }, []) := by
  unfold executeSingleUpdate
  rw [hid]

theorem processQuery_update_spec (text : String) (oracle : Oracle)
    (stub : Stub) (q : String → ToolResult) (hist : List HistoryEntry) (now : ℚ)
    (hkw : hasUpdateKeyword (lowerStr text.data) = true) :
    (processQuery text oracle stub q hist now).1.success = true ∧
    (processQuery text oracle stub q hist now).1.response =
      generateResponse
        (executeAzureDevops "task_update" (extractEntities text) stub q).1 ∧
    (processQuery text oracle stub q hist now).2.2 =
      (executeAzureDevops "task_update" (extractEntities text) stub q).2 ∧
    (processQuery text oracle stub q hist now).1.intent = "task_update" := by
  have hc := classify_update_eq text oracle hkw
  have hf := fallback_update_eq text hkw
  unfold processQuery
  rw [hc, hf]
  refine ⟨rfl, ?_, ?_, rfl⟩ <;>
    simp +decide [selectTool, executeTool]

/-- C1: any input containing an update verb but no parsable work-item id
(no extracted single id and no batch list) is rejected by the Azure
DevOps execution step with `success=false` and a message demanding
work-item ids, no `update_work_item` dispatch ever happens (the call log
of the whole `process_query` pipeline is empty), and the user-facing
response carries that rejection message. -/
theorem c1_update_without_id_rejected_no_dispatch
    (text : String) (oracle : Oracle) (stub : Stub) (q : String → ToolResult)
    (hist : List HistoryEntry) (now : ℚ)
    (hkw : hasUpdateKeyword (lowerStr text.data) = true)
    (hid : (extractEntities text).task_id = none)
    (hb : (extractEntities text).batch_updates = none) :
    (executeAzureDevops "task_update" (extractEntities text) stub q).1.success
      = false ∧
    ((executeAzureDevops "task_update" (extractEntities text) stub q).1.message
        = missingIdMessage ∨
     (executeAzureDevops "task_update" (extractEntities text) stub q).1.message
        = batchFormatErrorMessage) ∧
    strContains
      (executeAzureDevops "task_update" (extractEntities text) stub q).1.message
      "ID" ∧
    (executeAzureDevops "task_update" (extractEntities text) stub q).2 = [] ∧
    (processQuery text oracle stub q hist now).2.2 = [] ∧
    strContains (processQuery text oracle stub q hist now).1.response
      (executeAzureDevops "task_update" (extractEntities text) stub q).1.message := by
  have hp := processQuery_update_spec text oracle stub q hist now hkw
  cases herr : (extractEntities text).batch_update_error
  · have hexec : executeAzureDevops "task_update" (extractEntities text) stub q
        = ({ success := false, message := missingIdMessage }, []) := by
      rw [exec_ado_taskupdate_single _ _ _ herr hb, execSingle_missing_id _ _ hid]
    rw [hexec] at hp ⊢
    refine ⟨rfl, Or.inl rfl, by decide, rfl, hp.2.2.1, ?_⟩
    rw [hp.2.1]
    exact strContains_right _ (strContains_refl _)
  · have hexec : executeAzureDevops "task_update" (extractEntities text) stub q
        = ({ success := false, message := batchFormatErrorMessage }, []) := by
      exact exec_ado_taskupdate_batch_error _ _ _ herr
    rw [hexec] at hp ⊢
    refine ⟨rfl, Or.inr rfl, by decide, rfl, hp.2.2.1, ?_⟩
    rw [hp.2.1]
    exact strContains_right _ (strContains_refl _)

/-- Witness for C1 at the three phrases named by the specification:
`update all`, `update my tasks`, `update everything`. -/
theorem c1_update_without_id_rejected_no_dispatch_witness :
    (hasUpdateKeyword (lowerStr ("update all" : String).data) = true ∧
     (extractEntities "update all").task_id = none ∧
     (extractEntities "update all").batch_updates = none ∧
     (executeAzureDevops "task_update" (extractEntities "update all")
        (fun _ => Except.ok ()) (fun _ => ⟨true, ""⟩)).1.success = false ∧
     (processQuery "update all" (fun _ => none) (fun _ => Except.ok ())
        (fun _ => ⟨true, ""⟩) [] 0).2.2 = []) ∧
    (hasUpdateKeyword (lowerStr ("update my tasks" : String).data) = true ∧
     (extractEntities "update my tasks").task_id = none ∧
     (processQuery "update my tasks" (fun _ => none) (fun _ => Except.ok ())
        (fun _ => ⟨true, ""⟩) [] 0).2.2 = []) ∧
    (hasUpdateKeyword (lowerStr ("update everything" : String).data) = true ∧
     (extractEntities "update everything").task_id = none ∧
     (processQuery "update everything" (fun _ => none) (fun _ => Except.ok ())
        (fun _ => ⟨true, ""⟩) [] 0).2.2 = []) := by
  refine ⟨⟨by decide, by decide, by decide, ?_, ?_⟩,
          ⟨by decide, by decide, ?_⟩, ⟨by decide, by decide, ?_⟩⟩
  · exact (c1_update_without_id_rejected_no_dispatch "update all"
      (fun _ => none) (fun _ => Except.ok ()) (fun _ => ⟨true, ""⟩) [] 0
      (by decide) (by decide) (by decide)).1
  · exact (c1_update_without_id_rejected_no_dispatch "update all"
      (fun _ => none) (fun _ => Except.ok ()) (fun _ => ⟨true, ""⟩) [] 0
      (by decide) (by decide) (by decide)).2.2.2.2.1
  · exact (c1_update_without_id_rejected_no_dispatch "update my tasks"
      (fun _ => none) (fun _ => Except.ok ()) (fun _ => ⟨true, ""⟩) [] 0
      (by decide) (by decide) (by decide)).2.2.2.2.1
  · exact (c1_update_without_id_rejected_no_dispatch "update everything"
      (fun _ => none) (fun _ => Except.ok ()) (fun _ => ⟨true, ""⟩) [] 0
      (by decide) (by decide) (by decide)).2.2.2.2.1

/-- C8 (code bug evaluation): on the rejected query
`Update Status -> Active` the pipeline produces the rejection at the
tool level (`success=false`, missing-id message, no dispatch) and the
front-end response carries the apology plus that message — but the
orchestrator's result envelope reports `success = true`, because
`process_query` hardcodes `"success": True` on every non-exception
path.  This contradicts the claimed `success=false` envelope for
rejection paths (and `scripts/test_safety_validation.py`, which treats
a truthy `result['success']` on a dangerous query as a failure); only
the `except` branch produces `success=false`. -/
theorem c8_rejection_envelope_success_flag_evaluation
    (oracle : Oracle) (stub : Stub) (q : String → ToolResult)
    (hist : List HistoryEntry) (now : ℚ) :
    (processQuery "Update Status -> Active" oracle stub q hist now).1.success
      = true ∧
    (executeAzureDevops "task_update" (extractEntities "Update Status -> Active")
      stub q).1.success = false ∧
    (processQuery "Update Status -> Active" oracle stub q hist now).1.response
      = "I\x27m sorry, I couldn\x27t complete your request. " ++ missingIdMessage ∧
    (processQuery "Update Status -> Active" oracle stub q hist now).2.2 = [] := by
  have hp := processQuery_update_spec "Update Status -> Active" oracle stub q
    hist now (by decide)
  have hexec : executeAzureDevops "task_update"
      (extractEntities "Update Status -> Active") stub q
      = ({ success := false, message := missingIdMessage }, []) := by
    rw [exec_ado_taskupdate_single _ _ _ (by decide) (by decide),
      execSingle_missing_id _ _ (by decide)]
  rw [hexec] at hp
  exact ⟨hp.1, by rw [hexec], by rw [hp.2.1]; rfl, hp.2.2.1⟩

/-- C3 (counterexample): the claim states that on an otherwise valid
line (valid task-id prefix) unrecognized fields are simply ignored and
do not invalidate the line.  But the line
`TASK 123 -> Priority -> High` has a valid `task\s+(\d+)\s*->` prefix
and only unrecognized fields, and it invalidates the whole batch: the
extractor returns the batch-error signal. -/
theorem c3_unrecognized_only_line_counterexample :
    (searchAt mTaskArrow
      (pyStrip ("TASK 123 -> Priority -> High" : String).data)).isSome = true ∧
    parseBatchLine (pyStrip ("TASK 123 -> Priority -> High" : String).data)
      = none ∧
    extractBatchUpdates
      "update following individual tasks:\nTASK 123 -> Priority -> High"
      = none ∧
    (extractEntities
      "update following individual tasks:\nTASK 123 -> Priority -> High").batch_update_error
      = true :=
  ⟨by decide, by decide, by decide, by decide⟩

/-- C3 (amended): (1) any non-blank line after the batch header that
parses as invalid — because it lacks the `task\s+(\d+)\s*->` prefix OR
because it carries no recognized field update — poisons the whole
batch: the extractor returns the distinguished batch-error signal
(`none`); (2) a batch-error extraction is rejected with `success=false`
and the batch-format message, with zero dispatch calls; (3) on a line
with a valid task-id prefix and at least one recognized field,
unrecognized fields are ignored: the parsed item consists of the id and
exactly the three recognized extracts. -/
theorem c3_batch_all_or_nothing_amended :
    (∀ (text : String) (line : Chars),
      line ∈ (splitOnChar '\n' text.data).tail →
      pyStrip line ≠ [] →
      parseBatchLine (pyStrip line) = none →
      extractBatchUpdates text = none) ∧
    (∀ (text : String) (stub : Stub) (q : String → ToolResult),
      containsChars batchHeader.data (lowerStr text.data) = true →
      extractBatchUpdates text = none →
      (extractEntities text).batch_update_error = true ∧
      executeAzureDevops "task_update" (extractEntities text) stub q
        = ({ success := false, message := batchFormatErrorMessage }, [])) ∧
    (∀ (line tid rest : Chars),
      searchAt mTaskArrow line = some (tid, rest) →
      pyIsDigit tid = true →
      ((batchLineFields line).start_date.isNone &&
       (batchLineFields line).finish_date.isNone &&
       (batchLineFields line).status.isNone) = false →
      parseBatchLine line = some ⟨String.mk tid, batchLineFields line⟩) := by
  refine ⟨?_, ?_, ?_⟩
  · intro text line hmem hne hparse
    have h1 : pyStrip line ∈
        (((splitOnChar '\n' text.data).tail).map pyStrip).filter
          (fun l => !l.isEmpty) := by
      apply List.mem_filter.mpr
      refine ⟨List.mem_map.mpr ⟨line, hmem, rfl⟩, ?_⟩
      simpa using hne
    have h2 : (((((splitOnChar '\n' text.data).tail).map pyStrip).filter
        (fun l => !l.isEmpty)).map parseBatchLine).any Option.isNone = true := by
      apply List.any_eq_true.mpr
      exact ⟨parseBatchLine (pyStrip line),
        List.mem_map.mpr ⟨pyStrip line, h1, rfl⟩, by rw [hparse]; rfl⟩
    simp only [extractBatchUpdates]
    rw [h2]
    rfl
  · intro text stub q hheader hnone
    have herr : (extractEntities text).batch_update_error = true := by
      simp [extractEntities, hheader, hnone]
    exact ⟨herr, exec_ado_taskupdate_batch_error _ _ _ herr⟩
  · intro line tid rest hsearch hdig hfields
    simp [parseBatchLine, hsearch, hdig, hfields]

/-- Witness for the amended C3 at concrete inputs. -/
theorem c3_batch_all_or_nothing_amended_witness :
    ("TASK 123 -> Priority -> High" : String).data ∈
      (splitOnChar '\n'
        ("update following individual tasks:\nTASK 123 -> Priority -> High"
          : String).data).tail ∧
    pyStrip ("TASK 123 -> Priority -> High" : String).data ≠ [] ∧
    parseBatchLine (pyStrip ("TASK 123 -> Priority -> High" : String).data)
      = none ∧
    extractBatchUpdates
      "update following individual tasks:\nTASK 123 -> Priority -> High"
      = none ∧
    (extractEntities
      "update following individual tasks:\nTASK 123 -> Priority -> High").batch_update_error
      = true ∧
    executeAzureDevops "task_update"
      (extractEntities
        "update following individual tasks:\nTASK 123 -> Priority -> High")
      (fun _ => Except.ok ()) (fun _ => ⟨true, ""⟩)
      = ({ success := false, message := batchFormatErrorMessage }, []) ∧
    parseBatchLine ("task 5 -> status -> active" : String).data
      = some ⟨"5", batchLineFields ("task 5 -> status -> active" : String).data⟩ := by
  have h4 := c3_batch_all_or_nothing_amended.1
    "update following individual tasks:\nTASK 123 -> Priority -> High"
    ("TASK 123 -> Priority -> High" : String).data
    (by decide) (by decide) (by decide)
  have h56 := c3_batch_all_or_nothing_amended.2.1
    "update following individual tasks:\nTASK 123 -> Priority -> High"
    (fun _ => Except.ok ()) (fun _ => ⟨true, ""⟩) (by decide) h4
  have h7 := c3_batch_all_or_nothing_amended.2.2
    ("task 5 -> status -> active" : String).data
    ("5" : String).data (" status -> active" : String).data
    (by decide) (by decide) (by decide)
  exact ⟨by decide, by decide, by decide, h4, h56.1, h56.2, h7⟩

theorem dictLookup_insert_same (k : FieldKey) (v : FieldValue)
    (l : FieldUpdates) : dictLookup k (dictInsert k v l) = some v := by
  induction l with
  | nil => simp [dictInsert, dictLookup]
  | cons hd t ih =>
    by_cases hk : hd.1 = k
    · simp [dictInsert, hk, dictLookup]
    · simp only [dictInsert]
      rw [if_neg hk]
      simp only [dictLookup, List.find?_cons]
      rw [show (decide (hd.1 = k)) = false from by simp [hk]]
      exact ih

theorem dictLookup_insert_other (k k' : FieldKey) (v : FieldValue)
    (l : FieldUpdates) (hne : k' ≠ k) :
    dictLookup k' (dictInsert k v l) = dictLookup k' l := by
  induction l with
  | nil =>
    simp only [dictInsert, dictLookup, List.find?_cons, List.find?_nil]
    rw [show (decide (k = k')) = false from by simp [Ne.symm hne]]
  | cons hd t ih =>
    by_cases hk : hd.1 = k
    · simp only [dictInsert]
      rw [if_pos hk]
      simp only [dictLookup, List.find?_cons]
      rw [show (decide (k = k')) = false from by simp [Ne.symm hne],
        show (decide (hd.1 = k')) = false from by simp [hk, Ne.symm hne]]
    · simp only [dictInsert]
      rw [if_neg hk]
      simp only [dictLookup, List.find?_cons] at ih ⊢
      cases hd1 : decide (hd.1 = k')
      · exact ih
      · rfl

theorem dictLookup_condInsert_other (c : Bool) (k k' : FieldKey)
    (v : FieldValue) (fu : FieldUpdates) (hne : k' ≠ k) :
    dictLookup k' (condInsert c k v fu) = dictLookup k' fu := by
  cases c
  · rfl
  · simp only [condInsert, if_true]
    exact dictLookup_insert_other k k' v fu hne

/-- C6 (counterexample): the claim says the generic `status` entity
scalar becomes the planned status update only when `field_names`
contains `status` and no explicit status value family was populated.
But on `update task 123 start date 08/11/2025 done` the extracted
`field_names` is `["start_date"]` (no `status`) and `status_values` is
populated, yet the planner still emits a `status` update from the
scalar. -/
theorem c6_status_scalar_without_field_name_counterexample :
    (extractEntities "update task 123 start date 08/11/2025 done").field_names
      = ["start_date"] ∧
    (extractEntities "update task 123 start date 08/11/2025 done").status
      = some "resolved" ∧
    (extractEntities "update task 123 start date 08/11/2025 done").status_values
      = ["resolved"] ∧
    dictLookup (some "status")
      (buildSingleFieldUpdates
        (extractEntities "update task 123 start date 08/11/2025 done"))
      = some (FieldValue.str "resolved") :=
  ⟨by decide, by decide, by decide, by decide⟩

/-- C6 (amended): in the single-item planning path each field family
uses only the first extracted value, and the `status` key is planned as
follows: the first `status_values` entry when `field_names` contains
`status` and that family is non-empty; otherwise the generic `status`
entity scalar whenever it is set and non-empty — in particular even
when `field_names` does not contain `status` at all. -/
theorem c6_single_plan_field_families_amended :
    (∀ e : Entities,
      ((effectiveFieldKeys e).contains (some "status") &&
        !e.status_values.isEmpty) = true →
      dictLookup (some "status") (buildSingleFieldUpdates e)
        = some (FieldValue.str e.status_values.headI)) ∧
    (∀ (e : Entities) (s : String),
      ((effectiveFieldKeys e).contains (some "status") &&
        !e.status_values.isEmpty) = false →
      e.status = some s → s ≠ "" →
      dictLookup (some "status") (buildSingleFieldUpdates e)
        = some (FieldValue.str s)) ∧
    (∀ e : Entities,
      ((effectiveFieldKeys e).contains (some "remaining") &&
        !e.remaining_values.isEmpty) = true →
      dictLookup (some "remaining") (buildSingleFieldUpdates e)
        = some (FieldValue.int (digitsToNat e.remaining_values.headI.data))) ∧
    (∀ e : Entities,
      ((effectiveFieldKeys e).contains (some "completed") &&
        !e.completed_values.isEmpty) = true →
      dictLookup (some "completed") (buildSingleFieldUpdates e)
        = some (FieldValue.int (digitsToNat e.completed_values.headI.data))) ∧
    (∀ e : Entities,
      ((effectiveFieldKeys e).contains (some "original_estimate") &&
        !e.original_estimate_values.isEmpty) = true →
      dictLookup (some "original_estimate") (buildSingleFieldUpdates e)
        = some (FieldValue.int
            (digitsToNat e.original_estimate_values.headI.data))) ∧
    (∀ e : Entities,
      ((effectiveFieldKeys e).contains (some "assigned_to") &&
        !e.assignee_values.isEmpty) = true →
      dictLookup (some "assigned_to") (buildSingleFieldUpdates e)
        = some (FieldValue.str e.assignee_values.headI)) := by
  refine ⟨?_, ?_, ?_, ?_, ?_, ?_⟩
  · intro e hcond
    unfold buildSingleFieldUpdates
    rw [dictLookup_condInsert_other _ _ _ _ _ (by simp),
      dictLookup_condInsert_other _ _ _ _ _ (by simp),
      dictLookup_condInsert_other _ _ _ _ _ (by simp),
      dictLookup_condInsert_other _ _ _ _ _ (by simp)]
    unfold statusStep
    rw [hcond, if_pos rfl]
    exact dictLookup_insert_same _ _ _
  · intro e s hcond hs hne
    unfold buildSingleFieldUpdates
    rw [dictLookup_condInsert_other _ _ _ _ _ (by simp),
      dictLookup_condInsert_other _ _ _ _ _ (by simp),
      dictLookup_condInsert_other _ _ _ _ _ (by simp),
      dictLookup_condInsert_other _ _ _ _ _ (by simp)]
    unfold statusStep
    rw [hcond]
    simp only [Bool.false_eq_true, if_false, hs]
    rw [if_pos hne]
    exact dictLookup_insert_same _ _ _
  · intro e hcond
    unfold buildSingleFieldUpdates
    rw [dictLookup_condInsert_other _ _ _ _ _ (by simp),
      dictLookup_condInsert_other _ _ _ _ _ (by simp),
      dictLookup_condInsert_other _ _ _ _ _ (by simp)]
    unfold condInsert
    rw [hcond, if_pos rfl]
    exact dictLookup_insert_same _ _ _
  · intro e hcond
    unfold buildSingleFieldUpdates
    rw [dictLookup_condInsert_other _ _ _ _ _ (by simp),
      dictLookup_condInsert_other _ _ _ _ _ (by simp)]
    unfold condInsert
    rw [hcond, if_pos rfl]
    exact dictLookup_insert_same _ _ _
  · intro e hcond
    unfold buildSingleFieldUpdates
    rw [dictLookup_condInsert_other _ _ _ _ _ (by simp)]
    unfold condInsert
    rw [hcond, if_pos rfl]
    exact dictLookup_insert_same _ _ _
  · intro e hcond
    unfold buildSingleFieldUpdates
    unfold condInsert
    rw [hcond, if_pos rfl]
    exact dictLookup_insert_same _ _ _

/-- Witness for the amended C6: the scalar-fallback clause at the
counterexample text's entities, and the explicit-family clauses at a
concrete entity bag. -/
theorem c6_single_plan_field_families_amended_witness :
    (((effectiveFieldKeys
        (extractEntities "update task 123 start date 08/11/2025 done")).contains
          (some "status") &&
      !(extractEntities
          "update task 123 start date 08/11/2025 done").status_values.isEmpty)
      = false ∧
     dictLookup (some "status")
       (buildSingleFieldUpdates
         (extractEntities "update task 123 start date 08/11/2025 done"))
       = some (FieldValue.str "resolved")) ∧
    (dictLookup (some "status")
      (buildSingleFieldUpdates
        { task_id := some "55", field_names := ["status", "remaining"],
          status := some "active", status_values := ["active"],
          remaining_values := ["4"] })
      = some (FieldValue.str "active") ∧
     dictLookup (some "remaining")
      (buildSingleFieldUpdates
        { task_id := some "55", field_names := ["status", "remaining"],
          status := some "active", status_values := ["active"],
          remaining_values := ["4"] })
      = some (FieldValue.int 4)) := by
  refine ⟨⟨by decide, ?_⟩, ?_, ?_⟩
  · exact c6_single_plan_field_families_amended.2.1
      (extractEntities "update task 123 start date 08/11/2025 done")
      "resolved" (by decide) (by decide) (by decide)
  · exact c6_single_plan_field_families_amended.1
      { task_id := some "55", field_names := ["status", "remaining"],
        status := some "active", status_values := ["active"],
        remaining_values := ["4"] } (by decide)
  · exact c6_single_plan_field_families_amended.2.2.1
      { task_id := some "55", field_names := ["status", "remaining"],
        status := some "active", status_values := ["active"],
        remaining_values := ["4"] } (by decide)

theorem batch_counts (stub : Stub) (updates : List BatchItem) :
    (batchSucceeded updates stub).length + (batchFailed updates stub).length
      = updates.length := by
  induction updates with
  | nil => rfl
  | cons u t ih =>
    simp only [batchSucceeded, batchFailed] at ih ⊢
    cases hstub : stub (digitsToNat u.task_id.data) with
    | error err =>
      simp only [List.filter_cons, List.filterMap_cons, hstub, Except.isOk,
        Except.toBool, List.length_cons, if_false, Bool.false_eq_true,
        List.length_map] at ih ⊢
      omega
    | ok v =>
      simp only [List.filter_cons, List.filterMap_cons, hstub, Except.isOk,
        Except.toBool, List.length_cons, if_true, List.length_map] at ih ⊢
      omega

theorem mem_renderTaskLines (ids : List String) (tid : String) (h : tid ∈ ids) :
    strContains (renderTaskLines ids) ("TASK-" ++ tid) := by
  induction ids with
  | nil => cases h
  | cons a t ih =>
    rcases List.mem_cons.mp h with rfl | hmem
    · exact strContains_left _ (strContains_left _
        (strContains_right _ (strContains_refl _)))
    · exact strContains_right _ (ih hmem)

theorem mem_renderFailedLines (fs : List (String × String)) (pf : String × String)
    (h : pf ∈ fs) :
    strContains (renderFailedLines fs) ("TASK-" ++ pf.1 ++ ": " ++ pf.2) := by
  induction fs with
  | nil => cases h
  | cons a t ih =>
    rcases List.mem_cons.mp h with rfl | hmem
    · exact strContains_left _ (strContains_left _
        (strContains_right _ (strContains_refl _)))
    · exact strContains_right _ (ih hmem)

theorem renderBatch_partial_contents (succ : List String)
    (failed : List (String × String)) (hf : failed ≠ []) :
    strContains (renderBatchMessage succ failed)
      ("‚úÖ Successfully updated " ++ toString succ.length ++ " tasks") ∧
    strContains (renderBatchMessage succ failed)
      ("‚ùå Failed to update " ++ toString failed.length ++ " tasks") ∧
    strContains (renderBatchMessage succ failed)
      "**Batch Update Partially Completed**" := by
  have hfb : (!failed.isEmpty) = true := by simp [hf]
  unfold renderBatchMessage
  rw [hfb, if_pos rfl]
  refine ⟨?_, ?_, ?_⟩
  · exact strContains_left _ (strContains_left _ (strContains_left _
      (strContains_left _ (strContains_left _
        (strContains_right _ (strContains_refl _))))))
  · exact strContains_left _ (strContains_left _ (strContains_left _
      (strContains_right _ (strContains_refl _))))
  · exact strContains_left _ (strContains_left _ (strContains_left _
      (strContains_left _ (strContains_left _ (strContains_left _
        (by decide))))))

theorem renderBatch_success_header (succ : List String) :
    strContains (renderBatchMessage succ [])
      "**Batch Update Completed Successfully!**" := by
  unfold renderBatchMessage
  rw [show (!(([] : List (String × String)).isEmpty)) = false from rfl,
    if_neg (by simp)]
  exact strContains_left _ (strContains_left _ (strContains_left _
    (strContains_left _ (by decide))))

theorem renderBatch_mem_success (succ : List String)
    (failed : List (String × String)) (tid : String) (h : tid ∈ succ) :
    strContains (renderBatchMessage succ failed) ("TASK-" ++ tid) := by
  have hs : (!succ.isEmpty) = true := by
    simp [List.ne_nil_of_mem h]
  rcases hfe : failed with _ | ⟨f0, ft⟩
  · unfold renderBatchMessage
    rw [show (!(([] : List (String × String)).isEmpty)) = false from rfl,
      if_neg (by simp)]
    exact strContains_right _ (mem_renderTaskLines succ tid h)
  · have hfb : (!(f0 :: ft).isEmpty) = true := by simp
    unfold renderBatchMessage
    rw [hfb, if_pos rfl, hs, if_pos rfl]
    exact strContains_left _ (strContains_right _
      (strContains_right _ (mem_renderTaskLines succ tid h)))

theorem renderBatch_mem_failed (succ : List String)
    (failed : List (String × String)) (pf : String × String) (h : pf ∈ failed) :
    strContains (renderBatchMessage succ failed)
      ("TASK-" ++ pf.1 ++ ": " ++ pf.2) := by
  have hfb : (!failed.isEmpty) = true := by
    simp [List.ne_nil_of_mem h]
  unfold renderBatchMessage
  rw [hfb, if_pos rfl]
  refine strContains_right _ ?_
  rw [if_pos rfl]
  exact strContains_right _ (mem_renderFailedLines failed pf h)

theorem handleBatch_valid (updates : List BatchItem) (stub : Stub)
    (hids : ∀ u ∈ updates, pyIsDigit u.task_id.data = true) :
    handleBatchUpdates updates stub =
      ({ success := (batchFailed updates stub).isEmpty,
         message := renderBatchMessage (batchSucceeded updates stub)
           (batchFailed updates stub) },
       updates.map (fun u =>
         (digitsToNat u.task_id.data, batchFieldsToUpdates u.field_updates))) := by
  unfold handleBatchUpdates
  have hinv : updates.filter (fun u => !pyIsDigit u.task_id.data) = [] := by
    rw [List.filter_eq_nil_iff]
    intro u hu
    simp [hids u hu]
  rw [hinv]
  rfl

/-- C4: for a well-formed batch of N valid-id lines, exactly N
`update_work_item` dispatch attempts occur, one per line in input
order, regardless of per-item failures (no early abort); successes and
failures partition the batch; the aggregate message distinguishes the
all-succeeded and not-all-succeeded shapes, reports exactly M failed
and N−M succeeded, and attributes every success and every failure to
its work-item id. -/
theorem c4_batch_dispatch_counts_and_report
    (updates : List BatchItem) (stub : Stub)
    (hids : ∀ u ∈ updates, pyIsDigit u.task_id.data = true) :
    (handleBatchUpdates updates stub).2 =
      updates.map (fun u =>
        (digitsToNat u.task_id.data, batchFieldsToUpdates u.field_updates)) ∧
    (handleBatchUpdates updates stub).2.length = updates.length ∧
    (batchSucceeded updates stub).length + (batchFailed updates stub).length
      = updates.length ∧
    (handleBatchUpdates updates stub).1.success
      = (batchFailed updates stub).isEmpty ∧
    (handleBatchUpdates updates stub).1.message
      = renderBatchMessage (batchSucceeded updates stub)
          (batchFailed updates stub) ∧
    (batchFailed updates stub ≠ [] →
      strContains (handleBatchUpdates updates stub).1.message
        ("‚úÖ Successfully updated "
          ++ toString (batchSucceeded updates stub).length ++ " tasks") ∧
      strContains (handleBatchUpdates updates stub).1.message
        ("‚ùå Failed to update "
          ++ toString (batchFailed updates stub).length ++ " tasks") ∧
      strContains (handleBatchUpdates updates stub).1.message
        "**Batch Update Partially Completed**") ∧
    (batchFailed updates stub = [] →
      strContains (handleBatchUpdates updates stub).1.message
        "**Batch Update Completed Successfully!**") ∧
    (∀ tid ∈ batchSucceeded updates stub,
      strContains (handleBatchUpdates updates stub).1.message
        ("TASK-" ++ tid)) ∧
    (∀ pf ∈ batchFailed updates stub,
      strContains (handleBatchUpdates updates stub).1.message
        ("TASK-" ++ pf.1 ++ ": " ++ pf.2)) := by
  rw [handleBatch_valid updates stub hids]
  refine ⟨rfl, by simp, batch_counts stub updates, rfl, rfl, ?_, ?_, ?_, ?_⟩
  · intro hf
    exact renderBatch_partial_contents _ _ hf
  · intro hf
    rw [hf]
    exact renderBatch_success_header _
  · intro tid h
    exact renderBatch_mem_success _ _ tid h
  · intro pf h
    exact renderBatch_mem_failed _ _ pf h

/-- Witness for C4: a three-item batch whose middle item fails. -/
theorem c4_batch_dispatch_counts_and_report_witness :
    (∀ u ∈ ([⟨"21", ⟨some "08/08/2025", none, none⟩⟩,
             ⟨"22", ⟨none, some "08/09/2025", none⟩⟩,
             ⟨"23", ⟨none, none, some "active"⟩⟩] : List BatchItem),
      pyIsDigit u.task_id.data = true) ∧
    (handleBatchUpdates
      [⟨"21", ⟨some "08/08/2025", none, none⟩⟩,
       ⟨"22", ⟨none, some "08/09/2025", none⟩⟩,
       ⟨"23", ⟨none, none, some "active"⟩⟩]
      (fun n => if n = 22 then Except.error "boom" else Except.ok ())).2.length
      = 3 ∧
    strContains
      (handleBatchUpdates
        [⟨"21", ⟨some "08/08/2025", none, none⟩⟩,
         ⟨"22", ⟨none, some "08/09/2025", none⟩⟩,
         ⟨"23", ⟨none, none, some "active"⟩⟩]
        (fun n => if n = 22 then Except.error "boom" else Except.ok ())).1.message
      "‚úÖ Successfully updated 2 tasks" ∧
    strContains
      (handleBatchUpdates
        [⟨"21", ⟨some "08/08/2025", none, none⟩⟩,
         ⟨"22", ⟨none, some "08/09/2025", none⟩⟩,
         ⟨"23", ⟨none, none, some "active"⟩⟩]
        (fun n => if n = 22 then Except.error "boom" else Except.ok ())).1.message
      ("TASK-" ++ "22" ++ ": " ++ "boom") := by
  have h := c4_batch_dispatch_counts_and_report
    [⟨"21", ⟨some "08/08/2025", none, none⟩⟩,
     ⟨"22", ⟨none, some "08/09/2025", none⟩⟩,
     ⟨"23", ⟨none, none, some "active"⟩⟩]
    (fun n => if n = 22 then Except.error "boom" else Except.ok ())
    (by decide)
  refine ⟨by decide, ?_, ?_, ?_⟩
  · rw [h.2.1]
    rfl
  · have hc := (h.2.2.2.2.2.1 (by decide)).1
    rw [show ("‚úÖ Successfully updated "
        ++ toString (batchSucceeded
          [⟨"21", ⟨some "08/08/2025", none, none⟩⟩,
           ⟨"22", ⟨none, some "08/09/2025", none⟩⟩,
           ⟨"23", ⟨none, none, some "active"⟩⟩]
          (fun n => if n = 22 then Except.error "boom" else Except.ok ())).length
        ++ " tasks")
      = "‚úÖ Successfully updated 2 tasks" from by decide] at hc
    exact hc
  · exact h.2.2.2.2.2.2.2.2 ("22", "boom") (by decide)

/-- C10 (implicit): a batch dispatch with at least one failed item
yields an aggregate result with `success=false`, even when other items
succeeded (a partial outcome is reported as failure); only an
all-succeeded batch yields `success=true`. -/
theorem c10_partial_batch_success_flag
    (updates : List BatchItem) (stub : Stub)
    (hids : ∀ u ∈ updates, pyIsDigit u.task_id.data = true) :
    (batchFailed updates stub ≠ [] →
      (handleBatchUpdates updates stub).1.success = false) ∧
    (batchSucceeded updates stub ≠ [] → batchFailed updates stub ≠ [] →
      (handleBatchUpdates updates stub).1.success = false) ∧
    (batchFailed updates stub = [] →
      (handleBatchUpdates updates stub).1.success = true) := by
  rw [handleBatch_valid updates stub hids]
  refine ⟨fun hf => by simp [hf], fun _ hf => by simp [hf], fun hf => by simp [hf]⟩

/-- Witness for C10: a two-item batch with one success and one failure
is reported with `success=false`; the same batch with an all-ok stub is
reported with `success=true`. -/
theorem c10_partial_batch_success_flag_witness :
    (∀ u ∈ ([⟨"31", ⟨some "08/08/2025", none, none⟩⟩,
             ⟨"32", ⟨none, none, some "active"⟩⟩] : List BatchItem),
      pyIsDigit u.task_id.data = true) ∧
    batchSucceeded
      [⟨"31", ⟨some "08/08/2025", none, none⟩⟩,
       ⟨"32", ⟨none, none, some "active"⟩⟩]
      (fun n => if n = 32 then Except.error "x" else Except.ok ()) ≠ [] ∧
    batchFailed
      [⟨"31", ⟨some "08/08/2025", none, none⟩⟩,
       ⟨"32", ⟨none, none, some "active"⟩⟩]
      (fun n => if n = 32 then Except.error "x" else Except.ok ()) ≠ [] ∧
    (handleBatchUpdates
      [⟨"31", ⟨some "08/08/2025", none, none⟩⟩,
       ⟨"32", ⟨none, none, some "active"⟩⟩]
      (fun n => if n = 32 then Except.error "x" else Except.ok ())).1.success
      = false ∧
    (handleBatchUpdates
      [⟨"31", ⟨some "08/08/2025", none, none⟩⟩,
       ⟨"32", ⟨none, none, some "active"⟩⟩]
      (fun _ => Except.ok ())).1.success = true := by
  refine ⟨by decide, by decide, by decide, ?_, ?_⟩
  · exact (c10_partial_batch_success_flag
      [⟨"31", ⟨some "08/08/2025", none, none⟩⟩,
       ⟨"32", ⟨none, none, some "active"⟩⟩]
      (fun n => if n = 32 then Except.error "x" else Except.ok ())
      (by decide)).2.1 (by decide) (by decide)
  · exact (c10_partial_batch_success_flag
      [⟨"31", ⟨some "08/08/2025", none, none⟩⟩,
       ⟨"32", ⟨none, none, some "active"⟩⟩]
      (fun _ => Except.ok ()) (by decide)).2.2 (by decide)

/-- C9: intent classification is idempotent and deterministic — run as a
state transformer over the orchestrator's only mutable state (the
conversation history), classifying the same text twice yields the same
`Intent` (name, confidence and entities alike) and leaves the history
untouched.  The external classifier is embedded as a fixed oracle, so
classification is a pure function of the text and its environment. -/
theorem c9_classification_idempotent_stateless
    (hist : List HistoryEntry) (text : String) (oracle : Oracle) :
    (classifyIntentWithHistory hist text oracle).1 =
      (classifyIntentWithHistory
        (classifyIntentWithHistory hist text oracle).2 text oracle).1 ∧
    (classifyIntentWithHistory hist text oracle).2 = hist ∧
    (classifyIntentWithHistory
      (classifyIntentWithHistory hist text oracle).2 text oracle).2 = hist :=
  ⟨rfl, rfl, rfl⟩

end OsiAgent
